import Mathlib

set_option maxRecDepth 8000

/-
Verification of the client-side card-token lifecycle and payment-submission
flow of the anz-worldline-client-side-app repository, as a shallow embedding
of the JavaScript source in Lean 4.

Conventions of the embedding:
  - JavaScript strings are embedded as Lean String where only equality and
    truthiness matter, and as List Char where character-level manipulation
    (masking, splitting, regex tests) occurs.
  - JSON values persisted in browser localStorage are embedded as the
    inductive JsonVal below; JSON.parse composed with JSON.stringify is the
    identity on such values, so the storage slot is modelled at value level.
  - JavaScript numbers are IEEE-754 binary64; where the exact floating-point
    behaviour decides a claim, doubles are embedded as exact rationals and
    the rounding steps are made explicit (see roundDouble below).
-/

namespace AnzWorldline

/-- JSON-like values as produced by JSON.parse and consumed by
JSON.stringify in the browser code. -/
inductive JsonVal : Type
  | nullV : JsonVal
  | boolV : Bool → JsonVal
  | numV : ℚ → JsonVal
  | strV : String → JsonVal
  | arrV : List JsonVal → JsonVal
  | objV : List (String × JsonVal) → JsonVal

/-- JavaScript truthiness of a JsonVal: null, false, 0 and the empty string
are falsy; arrays and objects are always truthy. -/
def jsTruthy : JsonVal → Bool
  | .nullV => false
  | .boolV b => b
  | .numV q => decide (q ≠ 0)
  | .strV s => decide (s ≠ "")
  | .arrV _ => true
  | .objV _ => true

/-- First-match association lookup on object fields. -/
def assocField : List (String × JsonVal) → String → Option JsonVal
  | [], _ => none
  | (k, v) :: rest, key => if k = key then some v else assocField rest key

/-- JavaScript property access v.key: none models the undefined result
(key absent, or the receiver is not an object). -/
def getField (v : JsonVal) (key : String) : Option JsonVal :=
  match v with
  | .objV fields => assocField fields key
  | _ => none

/-- Truthiness of a property access, where an absent property (undefined)
is falsy. -/
def jsTruthyOpt : Option JsonVal → Bool
  | none => false
  | some v => jsTruthy v

/-- The single localStorage slot under STORAGE_KEY (worldline_card):
none models an absent key, some none models a stored string that JSON.parse
rejects, and some (some v) models a stored string that parses to v. -/
def Slot : Type := Option (Option JsonVal)

/-- Field key used by the token store. -/
def cardTokenKey : String := "cardToken"

/-- save from src/utils/localStorage.js: rejects a candidate when the
candidate itself or its cardToken property is falsy, otherwise overwrites
the slot with JSON.stringify of the candidate and reports true. The model
assumes the storage layer itself succeeds (no quota failure). -/
def save (slot : Slot) (cardData : JsonVal) : Bool × Slot :=
  if !jsTruthy cardData || !jsTruthyOpt (getField cardData cardTokenKey) then
    (false, slot)
  else
    (true, some (some cardData))

/-- load from src/utils/localStorage.js: returns null when getItem yields
null or an empty (falsy) string, returns null from the catch block when
JSON.parse throws, and otherwise returns the parsed value unchanged. -/
def load (slot : Slot) : JsonVal :=
  match slot with
  | none => .nullV
  | some none => .nullV
  | some (some v) => v

/-- clear from src/utils/localStorage.js: removes the slot unconditionally
and reports true. -/
def clear (_slot : Slot) : Bool × Slot := (true, none)

/-- C8: after a successful save the store holds exactly the saved CardToken
and load returns a value structurally equal to it; instantiating the slot
with the state left by an earlier save gives the two-successive-saves case,
the first token being fully replaced. -/
theorem save_load_most_recent (slot : Slot) (t : JsonVal)
    (h : (save slot t).1 = true) :
    (save slot t).2 = some (some t) ∧ load (save slot t).2 = t := by
  unfold save at h ⊢
  by_cases hc : (!jsTruthy t || !jsTruthyOpt (getField t cardTokenKey)) = true
  · rw [if_pos hc] at h
    exact absurd h (by simp)
  · rw [if_neg hc] at h ⊢
    exact ⟨rfl, rfl⟩

/-- A concrete CardToken-shaped object as produced by handleTokenize. -/
def sampleToken1 : JsonVal :=
  .objV [(cardTokenKey, .strV ("tok-first")), ("cardHolder", .strV ("TEST USER"))]

/-- A second concrete CardToken-shaped object with different fields. -/
def sampleToken2 : JsonVal :=
  .objV [(cardTokenKey, .strV ("tok-second")), ("cardHolder", .strV ("OTHER USER"))]

/-- Witness for C8: two successive successful saves leave the store holding
exactly the second token, and load returns it. -/
theorem save_load_most_recent_witness :
    (save (save none sampleToken1).2 sampleToken2).1 = true ∧
      ((save (save none sampleToken1).2 sampleToken2).2 =
          some (some sampleToken2) ∧
        load (save (save none sampleToken1).2 sampleToken2).2 = sampleToken2) :=
  ⟨rfl, save_load_most_recent (save none sampleToken1).2 sampleToken2 rfl⟩

/-- C10: a candidate whose cardToken property is absent, null or the empty
string is rejected by save, which returns false and leaves the slot
unchanged. -/
theorem save_rejects_falsy_token (slot : Slot) (cand : JsonVal)
    (h : getField cand cardTokenKey = none ∨
      getField cand cardTokenKey = some .nullV ∨
      getField cand cardTokenKey = some (.strV (""))) :
    save slot cand = (false, slot) := by
  have hf : jsTruthyOpt (getField cand cardTokenKey) = false := by
    rcases h with h | h | h <;> rw [h] <;> rfl
  unfold save
  rw [if_pos]
  rw [hf]
  simp

/-- Witness for C10: an object carrying an empty-string cardToken is
rejected exactly like a missing field, leaving a prior slot value intact. -/
theorem save_rejects_falsy_token_witness :
    (getField (.objV [(cardTokenKey, .strV (""))]) cardTokenKey = none ∨
      getField (.objV [(cardTokenKey, .strV (""))]) cardTokenKey =
        some .nullV ∨
      getField (.objV [(cardTokenKey, .strV (""))]) cardTokenKey =
        some (.strV (""))) ∧
    save (some (some sampleToken1)) (.objV [(cardTokenKey, .strV (""))]) =
      (false, some (some sampleToken1)) :=
  ⟨Or.inr (Or.inr rfl),
    save_rejects_falsy_token (some (some sampleToken1))
      (.objV [(cardTokenKey, .strV (""))]) (Or.inr (Or.inr rfl))⟩

/-- C3 counterexample: a persisted value that is parseable JSON but lacks
the cardToken field is returned as-is by load, not treated as none: the
empty object is returned even though its cardToken access is undefined. -/
theorem load_returns_tokenless_object :
    load (some (some (.objV []))) = .objV [] ∧
      getField (.objV []) cardTokenKey = none ∧
      load (some (some (.objV []))) ≠ .nullV :=
  ⟨rfl, rfl, by intro h; exact JsonVal.noConfusion h⟩

/-- C3 amended: load returns none exactly when the slot is empty or the
persisted value fails JSON parsing; any value that parses is returned
unchanged, with no structural validation of its fields. -/
theorem load_parse_cases :
    load none = .nullV ∧ load (some none) = .nullV ∧
      ∀ v : JsonVal, load (some (some v)) = v :=
  ⟨rfl, rfl, fun _ => rfl⟩

/-
Numeric model. JavaScript numbers are IEEE-754 binary64. The user-facing
amount is a decimal literal; parseFloat yields the binary64 value nearest
to it, the product with 100 is again rounded to binary64, and Math.round
then rounds to the nearest integer with ties toward positive infinity.
Doubles are embedded as exact unreduced fractions so every step of the
computation is explicit and kernel-computable; the model covers the normal
range of binary64, which contains every value these flows handle.
-/

/-- Exact fraction num / den with positive denominator, kept unreduced. -/
abbrev Frac : Type := ℤ × ℕ

/-- Product of two exact fractions. -/
def fracMul (x y : Frac) : Frac := (x.1 * y.1, x.2 * y.2)

/-- Floor of an exact fraction, via floor division. -/
def fracFloor (x : Frac) : ℤ := x.1.fdiv x.2

/-- Fuel-driven base-2 logarithm on naturals, log2F f n = floor log2 n for
0 < n < 2 ^ f. Fuel keeps the recursion structural so the kernel can
evaluate it. -/
def log2F : ℕ → ℕ → ℕ
  | _, 0 => 0
  | 0, _ => 0
  | f + 1, n => if n ≤ 1 then 0 else log2F f (n / 2) + 1

/-- Decides x < 2 ^ e by cross multiplication. -/
def fracLtPow2 (x : Frac) (e : ℤ) : Bool :=
  if 0 ≤ e then x.1 < (2 ^ e.toNat : ℤ) * x.2
  else x.1 * (2 ^ (-e).toNat : ℤ) < (x.2 : ℤ)

/-- Decides 2 ^ e ≤ x by cross multiplication. -/
def pow2LeFrac (e : ℤ) (x : Frac) : Bool :=
  if 0 ≤ e then (2 ^ e.toNat : ℤ) * x.2 ≤ x.1
  else (x.2 : ℤ) ≤ x.1 * (2 ^ (-e).toNat : ℤ)

/-- Floor of the base-2 logarithm of a positive fraction: a first estimate
from the bit lengths of numerator and denominator, corrected by at most
one in either direction. -/
def floorLog2 (x : Frac) : ℤ :=
  let a : ℤ := log2F 128 x.1.toNat
  let b : ℤ := log2F 128 x.2
  let e0 : ℤ := a - b
  if fracLtPow2 x e0 then e0 - 1
  else if pow2LeFrac (e0 + 1) x then e0 + 1
  else e0

/-- Round an exact fraction to the nearest integer, ties to even: the IEEE
default rounding used when a real result is fitted to binary64. The
fractional part is compared against one half by cross multiplication. -/
def rne (x : Frac) : ℤ :=
  let f := fracFloor x
  let t : ℤ := 2 * (x.1 - f * x.2)
  if t < (x.2 : ℤ) then f
  else if (x.2 : ℤ) < t then f + 1
  else if f % 2 = 0 then f
  else f + 1

/-- Round a positive fraction to the nearest binary64 value: scale the
value so that its 53-bit significand becomes an integer, round to nearest
even, and scale back. -/
def roundDoublePos (x : Frac) : Frac :=
  let e : ℤ := floorLog2 x
  if e ≤ 52 then
    let k : ℕ := (52 - e).toNat
    (rne (x.1 * (2 ^ k : ℤ), x.2), 2 ^ k)
  else
    let k : ℕ := (e - 52).toNat
    (rne (x.1, x.2 * 2 ^ k) * (2 ^ k : ℤ), 1)

/-- Round an exact fraction to the nearest binary64 value (normal range). -/
def roundDouble (x : Frac) : Frac :=
  if x.1 = 0 then (0, 1)
  else if x.1 < 0 then
    ((- (roundDoublePos (-x.1, x.2)).1), (roundDoublePos (-x.1, x.2)).2)
  else roundDoublePos x

/-- JS Math.round: nearest integer, ties toward positive infinity, which
on exact values is the floor of x + 1 / 2. -/
def jsMathRound (x : Frac) : ℤ := fracFloor (2 * x.1 + x.2, 2 * x.2)

/-- The amount conversion Math.round(parseFloat(amount) * 100) shared by
handleChargeWithToken in PaymentHistory.jsx and handleSubmit in
PaymentForm.jsx, applied to the exact decimal value of the amount field:
parseFloat gives the nearest double, the product with 100 is again a
double, and Math.round produces the integer minor units. -/
def amountInCents (x : Frac) : ℤ :=
  jsMathRound (roundDouble (fracMul (roundDouble x) (100, 1)))

/-- C2 counterexample: at the decimal amount 1.005 the code sends 100
minor units, while multiplying the amount by 100 and rounding to the
nearest integer without truncation (ties upward, as the claim itself fixes
by the example 10.005 to 1001 and not 1000) gives 101: the double nearest
to 1.005 lies below it, so the double product is 100.49999999999999. -/
theorem amountInCents_1005_counterexample :
    amountInCents (201, 200) = 100 ∧
      jsMathRound (fracMul (201, 200) (100, 1)) = 101 := by
  constructor <;> decide

/-- C2 amended: the amount sent in minor units is
Math.round(parseFloat(amount) * 100) under IEEE-754 binary64 arithmetic;
it never truncates the double product and agrees with exact rounding at
10.005 (giving 1001, not 1000) and at 77.99 (giving 7799), but not for
every decimal amount: at 1.005 it yields 100 rather than 101. -/
theorem amountInCents_double_semantics :
    amountInCents (2001, 200) = 1001 ∧
      amountInCents (7799, 100) = 7799 ∧
      amountInCents (201, 200) = 100 := by
  refine ⟨by decide, by decide, by decide⟩

/-
Payment submission flow from PaymentHistory.jsx handleChargeWithToken.
-/

/-- Field key for the session customer reference. -/
def customerIdKey : String := "customerId"

/-- Field key for the card holder name. -/
def cardHolderKey : String := "cardHolder"

/-- The JSON body of the fetch to /api/process-payment: properties read off
the current token (undefined when absent), the converted amount, and the
fixed currency. -/
structure ChargePayload where
  cardToken : Option JsonVal
  customerId : Option JsonVal
  amount : ℤ
  currency : String
  cardHolder : Option JsonVal

/-- Outcome of handleChargeWithToken up to the remote call: either a form
error with no submission, or a submitted payload. -/
inductive ChargeOutcome : Type
  | formErrorSet : String → ChargeOutcome
  | submitted : ChargePayload → ChargeOutcome

/-- The form error text set when no token is present. -/
def noTokenMsg : String := "No token found"

/-- handleChargeWithToken from PaymentHistory.jsx: if the current token is
falsy the form error is set and the function returns before any network
activity; otherwise the payload is built and posted to
/api/process-payment. The second component lists the remote calls made. -/
def handleChargeWithToken (currentToken : JsonVal) (amount : Frac) :
    ChargeOutcome × List ChargePayload :=
  if !jsTruthy currentToken then (.formErrorSet noTokenMsg, [])
  else
    let payload : ChargePayload :=
      { cardToken := getField currentToken cardTokenKey
        customerId := getField currentToken customerIdKey
        amount := amountInCents amount
        currency := "AUD"
        cardHolder := getField currentToken cardHolderKey }
    (.submitted payload, [payload])

/-- C4: invoking the payment submission flow while the token store is
empty (absent key, or a persisted value that fails parsing and is treated
as absent) sets the no-token error and performs no remote call at all. -/
theorem charge_empty_store_no_remote_call (slot : Slot) (amount : Frac)
    (h : slot = none ∨ slot = some none) :
    handleChargeWithToken (load slot) amount =
      (.formErrorSet noTokenMsg, []) := by
  rcases h with h | h <;> subst h <;> rfl

/-- Witness for C4: with an empty slot and amount 100.00 the flow fails
with the no-token error and the remote collaborator is never called. -/
theorem charge_empty_store_no_remote_call_witness :
    ((none : Slot) = none ∨ (none : Slot) = some none) ∧
      handleChargeWithToken (load none) (100, 1) =
        (.formErrorSet noTokenMsg, []) :=
  ⟨Or.inl rfl, charge_empty_store_no_remote_call none (100, 1) (Or.inl rfl)⟩

/-
Display helpers from CardForm.jsx and PaymentForm.jsx. JavaScript strings
are embedded as lists of characters here because the code manipulates them
character by character.
-/

/-- The character class matched by the JS regex backslash-s: space, tab,
line terminators and the Unicode space separators. -/
def jsWhitespace (c : Char) : Bool :=
  c.toNat == 0x9 || c.toNat == 0xA || c.toNat == 0xB || c.toNat == 0xC ||
  c.toNat == 0xD || c.toNat == 0x20 || c.toNat == 0xA0 ||
  c.toNat == 0x1680 || (0x2000 ≤ c.toNat && c.toNat ≤ 0x200A) ||
  c.toNat == 0x2028 || c.toNat == 0x2029 || c.toNat == 0x202F ||
  c.toNat == 0x205F || c.toNat == 0x3000 || c.toNat == 0xFEFF

/-- cardNumber.replace with the global whitespace regex and the empty
replacement: removes every whitespace character. -/
def stripWs (l : List Char) : List Char := l.filter (fun c => !jsWhitespace c)

/-- maskCardNumber from CardForm.jsx and PaymentForm.jsx:
digits.slice(-4).padStart(digits.length, mask): the last four characters
of the whitespace-stripped input, left padded with the mask character back
to the stripped length. slice(-4) of a shorter string is the whole string,
and padStart never truncates. -/
def maskCardNumber (cardNumber : List Char) : List Char :=
  let digits := stripWs cardNumber
  let last4 := digits.drop (digits.length - 4)
  List.replicate (digits.length - last4.length) '*' ++ last4

/-- C5: the masked number has the same length as the cleaned input, ends
with its last four characters, and every preceding character is the mask
character; concretely the sixteen-digit VISA number masks to twelve mask
characters followed by 1111, and the fifteen-digit AMEX number keeps
length fifteen. -/
theorem maskCardNumber_shape (cardNumber : List Char) :
    (maskCardNumber cardNumber).length = (stripWs cardNumber).length ∧
      (maskCardNumber cardNumber).drop ((stripWs cardNumber).length - 4) =
        (stripWs cardNumber).drop ((stripWs cardNumber).length - 4) ∧
      (∀ c ∈ (maskCardNumber cardNumber).take
          ((stripWs cardNumber).length - 4), c = '*') ∧
      maskCardNumber ("4111111111111111".toList) =
        ("************1111".toList) ∧
      (maskCardNumber ("378282246310005".toList)).length = 15 := by
  have hcount : (stripWs cardNumber).length -
      ((stripWs cardNumber).drop ((stripWs cardNumber).length - 4)).length =
      (stripWs cardNumber).length - 4 := by
    rw [List.length_drop]
    omega
  refine ⟨?_, ?_, ?_, by decide, by decide⟩
  · simp only [maskCardNumber, List.length_append, List.length_replicate,
      List.length_drop]
    omega
  · simp only [maskCardNumber]
    rw [List.drop_left']
    rw [List.length_replicate]
    exact hcount
  · intro c hc
    simp only [maskCardNumber] at hc
    rw [List.take_left'] at hc
    · exact List.eq_of_mem_replicate hc
    · rw [List.length_replicate]
      exact hcount

/-- JS String.prototype.split with a one-character separator: cuts the
list at every occurrence of the separator; an empty input yields one empty
part, never the empty list of parts. -/
def jsSplit (sep : Char) : List Char → List (List Char)
  | [] => [[]]
  | c :: rest =>
    if c = sep then [] :: jsSplit sep rest
    else
      match jsSplit sep rest with
      | [] => [[c]]
      | part :: parts => (c :: part) :: parts

/-- Splitting a list that does not contain the separator yields that one
part. -/
theorem jsSplit_no_sep (sep : Char) (l : List Char) (h : sep ∉ l) :
    jsSplit sep l = [l] := by
  induction l with
  | nil => rfl
  | cons c rest ih =>
    have hcs : ¬c = sep := fun hc => h (hc ▸ List.mem_cons_self c rest)
    have hr : sep ∉ rest := fun hr => h (List.mem_cons_of_mem c hr)
    simp only [jsSplit, if_neg hcs, ih hr]

/-- Splitting at the first separator occurrence peels off the part before
it. -/
theorem jsSplit_append (sep : Char) (m y : List Char) (hm : sep ∉ m) :
    jsSplit sep (m ++ sep :: y) = m :: jsSplit sep y := by
  induction m with
  | nil => simp [jsSplit]
  | cons c m ih =>
    have hcs : ¬c = sep := fun hc => hm (hc ▸ List.mem_cons_self c m)
    have hm2 : sep ∉ m := fun hr => hm (List.mem_cons_of_mem c hr)
    simp only [List.cons_append, jsSplit, if_neg hcs, List.append_eq, ih hm2]

/-- The expiry conversion of handleTokenize in CardForm.jsx and of
handleSubmit in PaymentForm.jsx: when the field is truthy and contains a
slash, it is split at the slash, a two-character year is prefixed with the
literal characters 2 and 0, and month and year are concatenated. The one-
and zero-part match arms are unreachable because a list containing the
separator always splits into at least two parts. -/
def convertExpiry (expiryDate : List Char) : List Char :=
  if expiryDate ≠ [] ∧ '/' ∈ expiryDate then
    match jsSplit '/' expiryDate with
    | month :: year :: _ =>
      month ++ (if year.length = 2 then '2' :: '0' :: year else year)
    | [month] => month
    | [] => []
  else expiryDate

/-- C6: for every expiry in display form MM slash YY with a two-digit
month and a two-digit year, the wire-form conversion yields the month
unchanged followed by 20YY. -/
theorem convertExpiry_two_digit_year (m y : List Char)
    (_hmlen : m.length = 2) (hm : '/' ∉ m) (hy : '/' ∉ y)
    (hylen : y.length = 2) :
    convertExpiry (m ++ '/' :: y) = m ++ '2' :: '0' :: y := by
  have hne : m ++ '/' :: y ≠ [] := by simp
  have hmem : '/' ∈ m ++ '/' :: y := by simp
  unfold convertExpiry
  rw [if_pos ⟨hne, hmem⟩, jsSplit_append _ _ _ hm, jsSplit_no_sep _ _ hy]
  simp [hylen]

/-- Witness for C6: the display expiry 12 slash 25 converts to 122025. -/
theorem convertExpiry_two_digit_year_witness :
    (['1', '2'] : List Char).length = 2 ∧
      '/' ∉ (['1', '2'] : List Char) ∧
      '/' ∉ (['2', '5'] : List Char) ∧
      (['2', '5'] : List Char).length = 2 ∧
      convertExpiry (['1', '2'] ++ '/' :: ['2', '5']) =
        ['1', '2'] ++ '2' :: '0' :: ['2', '5'] :=
  ⟨rfl, by decide, by decide, rfl,
    convertExpiry_two_digit_year _ _ rfl (by decide) (by decide) rfl⟩

/-
Local validation and the tokenization gate from CardForm.jsx.
-/

/-- The four form fields read by validateFormData in CardForm.jsx. -/
structure FormData where
  cardNumber : List Char
  expiryDate : List Char
  cvv : List Char
  cardHolder : List Char
deriving DecidableEq

/-- The field-keyed error object built by validateFormData: one optional
message per field. -/
structure FieldErrors where
  cardNumber : Option String
  expiryDate : Option String
  cvv : Option String
  cardHolder : Option String
deriving DecidableEq

/-- The JS regex test for two digits, a slash and two digits, anchored at
both ends. -/
def matchesExpiryRe (l : List Char) : Bool :=
  match l with
  | [a, b, s, c, d] =>
    a.isDigit && b.isDigit && (s == '/') && c.isDigit && d.isDigit
  | _ => false

/-- JS String.prototype.trim: strips leading and trailing whitespace. -/
def jsTrim (l : List Char) : List Char :=
  ((l.dropWhile jsWhitespace).reverse.dropWhile jsWhitespace).reverse

/-- Message for a card number failing the length band. -/
def invalidCardMsg : String := "Invalid card number"

/-- Message for an expiry failing the pattern. -/
def expiryFmtMsg : String := "Format: MM/YY"

/-- Message for a cvv failing the length check. -/
def cvvLenMsg : String := "CVV must be 3-4 digits"

/-- Message for an empty card holder. -/
def holderReqMsg : String := "Card holder name required"

/-- Form-level message shown when validation fails. -/
def correctErrorsMsg : String := "Please correct the errors below"

/-- Form-level message shown when the session is missing. -/
def sessionNotInitMsg : String :=
  "Session not initialized. Click \"Retry\" or refresh the page."

/-- validateFormData from CardForm.jsx: the card number is stripped of
whitespace and its length checked against the 13 to 19 band, the expiry is
tested against the two-digit slash two-digit pattern, the cvv is checked
by length alone, and the holder name must be non-empty after trim. Each
failing field receives its own entry. -/
def validateFormData (fd : FormData) : FieldErrors :=
  let cardDigits := stripWs fd.cardNumber
  { cardNumber :=
      if cardDigits.isEmpty ∨ cardDigits.length < 13 ∨ cardDigits.length > 19
      then some invalidCardMsg else none
    expiryDate :=
      if fd.expiryDate.isEmpty ∨ ¬matchesExpiryRe fd.expiryDate
      then some expiryFmtMsg else none
    cvv :=
      if fd.cvv.isEmpty ∨ fd.cvv.length < 3 ∨ fd.cvv.length > 4
      then some cvvLenMsg else none
    cardHolder :=
      if (jsTrim fd.cardHolder).isEmpty then some holderReqMsg else none }

/-- Object.keys(errors).length is zero exactly when no field has an
entry. -/
def formValid (e : FieldErrors) : Bool :=
  e.cardNumber.isNone && e.expiryDate.isNone && e.cvv.isNone &&
    e.cardHolder.isNone

/-- Collaborator calls of the tokenization flow; the proceed path of
handleTokenize begins with session.getPaymentProduct before the encryptor
runs. -/
inductive TokenizeCall : Type
  | getPaymentProduct : TokenizeCall
  | encrypt : TokenizeCall
deriving DecidableEq

/-- Outcome of the pre-network gate of handleTokenize. -/
inductive TokenizeOutcome : Type
  | validationFailure : FieldErrors → String → TokenizeOutcome
  | noSession : String → TokenizeOutcome
  | proceeded : TokenizeOutcome
deriving DecidableEq

/-- The gate of handleTokenize in CardForm.jsx: failing local validation
sets the form error and returns before any collaborator interaction, a
missing session likewise returns early, and only then does the flow reach
its first collaborator call. Calls past the first are not modelled here. -/
def handleTokenizeGate (fd : FormData) (sessionPresent : Bool) :
    TokenizeOutcome × List TokenizeCall :=
  let errors := validateFormData fd
  if !formValid errors then (.validationFailure errors correctErrorsMsg, [])
  else if !sessionPresent then (.noSession sessionNotInitMsg, [])
  else (.proceeded, [.getPaymentProduct])

/-- A form input whose cvv has three characters but is not made of
digits. -/
def fdNonDigitCvv : FormData :=
  { cardNumber := "4111111111111111".toList
    expiryDate := "12/25".toList
    cvv := "abc".toList
    cardHolder := "TEST USER".toList }

/-- C7 counterexample: a cvv that is not 3 to 4 digits, namely abc, passes
local validation because only its length is checked, so the input is not
rejected and the flow proceeds to a collaborator call. -/
theorem validate_accepts_non_digit_cvv :
    fdNonDigitCvv.cvv.all (fun c => c.isDigit) = false ∧
      validateFormData fdNonDigitCvv =
        { cardNumber := none, expiryDate := none, cvv := none,
          cardHolder := none } ∧
      handleTokenizeGate fdNonDigitCvv true =
        (.proceeded, [.getPaymentProduct]) := by
  refine ⟨by decide, by decide, by decide⟩

/-- C7 amended: a card number whose whitespace-stripped length lies
outside 13 to 19, an expiry not matching the two-digit slash two-digit
pattern, a cvv whose length is not 3 to 4 characters, or a holder name
empty after trim, is rejected by local validation with one error entry per
failing field, and no collaborator call of any kind is made. -/
theorem validation_gate_rejects_no_network (fd : FormData)
    (sessionPresent : Bool)
    (h : (stripWs fd.cardNumber).length < 13 ∨
      (stripWs fd.cardNumber).length > 19 ∨
      ¬matchesExpiryRe fd.expiryDate = true ∨
      fd.cvv.length < 3 ∨ fd.cvv.length > 4 ∨
      jsTrim fd.cardHolder = []) :
    (handleTokenizeGate fd sessionPresent).2 = [] ∧
      (handleTokenizeGate fd sessionPresent).1 =
        .validationFailure (validateFormData fd) correctErrorsMsg ∧
      ((stripWs fd.cardNumber).length < 13 ∨
          (stripWs fd.cardNumber).length > 19 →
        (validateFormData fd).cardNumber = some invalidCardMsg) ∧
      (¬matchesExpiryRe fd.expiryDate = true →
        (validateFormData fd).expiryDate = some expiryFmtMsg) ∧
      (fd.cvv.length < 3 ∨ fd.cvv.length > 4 →
        (validateFormData fd).cvv = some cvvLenMsg) ∧
      (jsTrim fd.cardHolder = [] →
        (validateFormData fd).cardHolder = some holderReqMsg) := by
  have hcard : (stripWs fd.cardNumber).length < 13 ∨
      (stripWs fd.cardNumber).length > 19 →
      (validateFormData fd).cardNumber = some invalidCardMsg := by
    intro hc
    unfold validateFormData
    exact if_pos (Or.inr hc)
  have hexp : ¬matchesExpiryRe fd.expiryDate = true →
      (validateFormData fd).expiryDate = some expiryFmtMsg := by
    intro hc
    unfold validateFormData
    exact if_pos (Or.inr hc)
  have hcvv : fd.cvv.length < 3 ∨ fd.cvv.length > 4 →
      (validateFormData fd).cvv = some cvvLenMsg := by
    intro hc
    unfold validateFormData
    exact if_pos (Or.inr hc)
  have hhold : jsTrim fd.cardHolder = [] →
      (validateFormData fd).cardHolder = some holderReqMsg := by
    intro hc
    unfold validateFormData
    refine if_pos ?_
    rw [hc]
    rfl
  have hv : formValid (validateFormData fd) = false := by
    unfold formValid
    rcases h with hc | hc | hc | hc | hc | hc
    · rw [hcard (Or.inl hc)]; rfl
    · rw [hcard (Or.inr hc)]; rfl
    · rw [hexp hc]; simp
    · rw [hcvv (Or.inl hc)]; simp
    · rw [hcvv (Or.inr hc)]; simp
    · rw [hhold hc]; simp
  have hgate : handleTokenizeGate fd sessionPresent =
      (.validationFailure (validateFormData fd) correctErrorsMsg, []) := by
    simp [handleTokenizeGate, hv]
  exact ⟨by rw [hgate], by rw [hgate], hcard, hexp, hcvv, hhold⟩

/-- A form input whose cvv has five characters. -/
def fdLongCvv : FormData :=
  { cardNumber := "4111111111111111".toList
    expiryDate := "12/25".toList
    cvv := "12345".toList
    cardHolder := "TEST USER".toList }

/-- Witness for the amended C7: a five-character cvv is rejected with an
entry under the cvv key and the flow makes no collaborator call. -/
theorem validation_gate_rejects_no_network_witness :
    ((stripWs fdLongCvv.cardNumber).length < 13 ∨
      (stripWs fdLongCvv.cardNumber).length > 19 ∨
      ¬matchesExpiryRe fdLongCvv.expiryDate = true ∨
      fdLongCvv.cvv.length < 3 ∨ fdLongCvv.cvv.length > 4 ∨
      jsTrim fdLongCvv.cardHolder = []) ∧
      ((handleTokenizeGate fdLongCvv true).2 = [] ∧
        (handleTokenizeGate fdLongCvv true).1 =
          .validationFailure (validateFormData fdLongCvv) correctErrorsMsg ∧
        ((stripWs fdLongCvv.cardNumber).length < 13 ∨
            (stripWs fdLongCvv.cardNumber).length > 19 →
          (validateFormData fdLongCvv).cardNumber = some invalidCardMsg) ∧
        (¬matchesExpiryRe fdLongCvv.expiryDate = true →
          (validateFormData fdLongCvv).expiryDate = some expiryFmtMsg) ∧
        (fdLongCvv.cvv.length < 3 ∨ fdLongCvv.cvv.length > 4 →
          (validateFormData fdLongCvv).cvv = some cvvLenMsg) ∧
        (jsTrim fdLongCvv.cardHolder = [] →
          (validateFormData fdLongCvv).cardHolder = some holderReqMsg)) :=
  ⟨by decide, validation_gate_rejects_no_network fdLongCvv true (by decide)⟩

/-
Payment result stage: the useEffect of the PaymentStatus component.
-/

/-- The browser-visible state read and written by the PaymentStatus
useEffect: the two query-string parameters of the current URL and the
three sessionStorage entries. -/
structure BrowserState where
  urlPaymentId : Option String
  urlStatus : Option String
  showPaymentStatus : Option String
  lastPaymentId : Option String
  lastPaymentStatus : Option String
deriving DecidableEq

/-- The status object placed into component state when a result is
displayed. -/
structure DisplayedStatus where
  paymentId : String
  status : Option String
  source : String
deriving DecidableEq

/-- Source tag of a redirect-return result. -/
def redirectSource : String := "3DS_RETURN"

/-- Source tag of a same-session result. -/
def sessionSource : String := "SESSION"

/-- The flag value under which the modal is shown. -/
def showFlagTrue : String := "true"

/-- The else branch of the PaymentStatus useEffect: when the show flag
equals the literal true string, the last payment id and status are read
from sessionStorage and displayed if the id is truthy, and the flag is
removed so the modal does not show again on refresh; otherwise nothing
happens. -/
def sessionResultBranch (st : BrowserState) :
    Option DisplayedStatus × BrowserState :=
  if st.showPaymentStatus = some showFlagTrue then
    match st.lastPaymentId with
    | some lid =>
      if lid = "" then (none, { st with showPaymentStatus := none })
      else
        (some { paymentId := lid
                status := st.lastPaymentStatus
                source := sessionSource },
          { st with showPaymentStatus := none })
    | none => (none, { st with showPaymentStatus := none })
  else (none, st)

/-- The PaymentStatus useEffect: when both redirect-return parameters are
present and truthy they are displayed with the redirect source tag and
history.replaceState strips them from the URL; otherwise the same-session
branch runs. -/
def paymentStatusLoad (st : BrowserState) :
    Option DisplayedStatus × BrowserState :=
  match st.urlPaymentId, st.urlStatus with
  | some pid, some rst =>
    if pid = "" ∨ rst = "" then sessionResultBranch st
    else
      (some { paymentId := pid
              status := some rst
              source := redirectSource },
        { st with urlPaymentId := none, urlStatus := none })
  | _, _ => sessionResultBranch st

/-- The session branch never touches the URL parameters. -/
theorem sessionBranch_preserves_url (st : BrowserState) :
    (sessionResultBranch st).2.urlPaymentId = st.urlPaymentId ∧
      (sessionResultBranch st).2.urlStatus = st.urlStatus := by
  unfold sessionResultBranch
  by_cases hf : st.showPaymentStatus = some showFlagTrue
  · rw [if_pos hf]
    cases hl : st.lastPaymentId with
    | none => exact ⟨rfl, rfl⟩
    | some lid =>
      dsimp only
      by_cases he : lid = ""
      · rw [if_pos he]; exact ⟨rfl, rfl⟩
      · rw [if_neg he]; exact ⟨rfl, rfl⟩
  · rw [if_neg hf]; exact ⟨rfl, rfl⟩

/-- After the session branch the show flag is never the literal true
string: either it was just removed, or it already differed. -/
theorem sessionBranch_flag_cleared (st : BrowserState) :
    ¬(sessionResultBranch st).2.showPaymentStatus = some showFlagTrue := by
  unfold sessionResultBranch
  by_cases hf : st.showPaymentStatus = some showFlagTrue
  · rw [if_pos hf]
    cases hl : st.lastPaymentId with
    | none => simp
    | some lid =>
      dsimp only
      by_cases he : lid = ""
      · rw [if_pos he]; simp
      · rw [if_neg he]; simp
  · rw [if_neg hf]; exact hf

/-- With the show flag not set to the literal true string, the session
branch displays nothing and leaves the state unchanged. -/
theorem sessionBranch_skip (st : BrowserState)
    (h : ¬st.showPaymentStatus = some showFlagTrue) :
    sessionResultBranch st = (none, st) := by
  unfold sessionResultBranch
  rw [if_neg h]

/-- Without a redirect payment id parameter, the load reduces to the
session branch. -/
theorem paymentStatusLoad_no_params (st : BrowserState)
    (h : st.urlPaymentId = none) :
    paymentStatusLoad st = sessionResultBranch st := by
  unfold paymentStatusLoad
  rw [h]

/-- C9: when both redirect-return parameters are present and truthy they
are displayed with the redirect source tag regardless of any same-session
pending result, and they are removed from the visible state; and on a
state with no redirect parameters, whatever the first load displayed, a
second load displays nothing. -/
theorem paymentStatus_redirect_precedence_no_reshow
    (st st2 : BrowserState) (pid rst : String)
    (h1 : st.urlPaymentId = some pid) (h2 : st.urlStatus = some rst)
    (h3 : ¬pid = "") (h4 : ¬rst = "")
    (h5 : st2.urlPaymentId = none) (_h6 : st2.urlStatus = none) :
    paymentStatusLoad st =
      (some { paymentId := pid
              status := some rst
              source := redirectSource },
        { st with urlPaymentId := none, urlStatus := none }) ∧
      (paymentStatusLoad (paymentStatusLoad st2).2).1 = none := by
  constructor
  · unfold paymentStatusLoad
    rw [h1, h2]
    simp only []
    rw [if_neg]
    intro hc
    rcases hc with hc | hc
    · exact h3 hc
    · exact h4 hc
  · rw [paymentStatusLoad_no_params st2 h5]
    rw [paymentStatusLoad_no_params (sessionResultBranch st2).2
      (by rw [(sessionBranch_preserves_url st2).1]; exact h5)]
    rw [sessionBranch_skip (sessionResultBranch st2).2
      (sessionBranch_flag_cleared st2)]

/-- A state carrying both redirect parameters and a conflicting pending
same-session result. -/
def stRedirect : BrowserState :=
  { urlPaymentId := some ("pay-redirect")
    urlStatus := some ("SUCCEEDED")
    showPaymentStatus := some showFlagTrue
    lastPaymentId := some ("pay-old")
    lastPaymentStatus := some ("FAILED") }

/-- A state with no redirect parameters and a pending same-session
result. -/
def stSession : BrowserState :=
  { urlPaymentId := none
    urlStatus := none
    showPaymentStatus := some showFlagTrue
    lastPaymentId := some ("pay-session")
    lastPaymentStatus := some ("SUCCEEDED") }

/-- Witness for C9: on stRedirect the redirect parameters win over the
pending session result and are stripped; on stSession a second load after
the displaying load shows nothing. -/
theorem paymentStatus_redirect_precedence_no_reshow_witness :
    stRedirect.urlPaymentId = some ("pay-redirect") ∧
      stRedirect.urlStatus = some ("SUCCEEDED") ∧
      stSession.urlPaymentId = none ∧ stSession.urlStatus = none ∧
      (paymentStatusLoad stRedirect =
        (some { paymentId := "pay-redirect"
                status := some ("SUCCEEDED")
                source := redirectSource },
          { stRedirect with urlPaymentId := none, urlStatus := none }) ∧
        (paymentStatusLoad (paymentStatusLoad stSession).2).1 = none) :=
  ⟨rfl, rfl, rfl, rfl,
    paymentStatus_redirect_precedence_no_reshow stRedirect stSession
      ("pay-redirect") ("SUCCEEDED") rfl rfl (by decide) (by decide) rfl rfl⟩

/-
Backend payment processing: the /api/process-payment handler of server.js.
-/

/-- The fields of the SDK createPayment response body that the handler
reads: the optional-chain read of the masked card echo is flattened into
one optional field. -/
structure CreatePaymentBody where
  id : Option String
  status : Option String
  statusCode : Option ℤ
  authRedirectUrl : Option String
  cardEcho : Option String
deriving DecidableEq

/-- The SDK response envelope: its success flag, HTTP status and body. -/
structure SdkResponse where
  isSuccess : Bool
  httpStatus : ℤ
  body : CreatePaymentBody
deriving DecidableEq

/-- Calls the handler can make against the payment collaborator: the
charge, and a capture of a previously authorized payment. The latter is
part of the model vocabulary so that its absence from every execution
trace of the handler can be stated. -/
inductive ServerCall : Type
  | createPayment : String → String → ℤ → String → ServerCall
  | capturePayment : String → ℤ → ServerCall
deriving DecidableEq

/-- Whether a collaborator call is a capture call. -/
def isCaptureCall : ServerCall → Bool
  | .capturePayment _ _ => true
  | _ => false

/-- The JSON body and HTTP status the handler sends back; absent optional
fields model properties the branch does not set. -/
structure ApiJson where
  httpStatus : ℤ := 200
  success : Option Bool := none
  paymentId : Option String := none
  status : Option String := none
  requires3DS : Option Bool := none
  redirectUrl : Option String := none
  errorText : Option String := none
  statusCode : Option ℤ := none
  cardNumber : Option String := none
  message : Option String := none
deriving DecidableEq

/-- JS a or-else b on an optional string, where the empty string is
falsy. -/
def jsOrStr (v : Option String) (dflt : String) : String :=
  match v with
  | some s => if s = "" then dflt else s
  | none => dflt

/-- JS a or-else b on an optional integer, where zero is falsy. -/
def jsOrInt (v : Option ℤ) (dflt : ℤ) : ℤ :=
  match v with
  | some n => if n = 0 then dflt else n
  | none => dflt

/-- Error text of the missing-fields response. -/
def missingFieldsErr : String := "Missing required fields"

/-- Error text of the failure response. -/
def paymentDeclinedErr : String := "Payment declined or processing failed"

/-- Message of the challenge response. -/
def authRequiredMsg : String := "Customer authentication required"

/-- The /api/process-payment handler of server.js, parameterised by the
request fields and the response the payment collaborator returns to its
single createPayment call. The first component is the HTTP reply, the
second the complete list of collaborator calls the handler performs: one
charge, and nothing else in any branch — in particular the success branch
replies with the raw reported status and never issues a capture. -/
def processPayment (encryptedPaymentRequest customerId : String)
    (amount : Frac) (currency : String) (sdkResp : SdkResponse) :
    ApiJson × List ServerCall :=
  if encryptedPaymentRequest = "" ∨ customerId = "" ∨ amount.1 = 0 ∨
      currency = "" then
    ({ httpStatus := 400, errorText := some missingFieldsErr,
       message := some ("encryptedPaymentRequest, customerId, amount, and currency are required") }, [])
  else
    let calls := [ServerCall.createPayment encryptedPaymentRequest
      customerId (jsMathRound amount) currency]
    if sdkResp.isSuccess then
      ({ httpStatus := 200, success := some true,
         paymentId := sdkResp.body.id, status := sdkResp.body.status,
         cardNumber := some (jsOrStr sdkResp.body.cardEcho ("N/A")) }, calls)
    else if sdkResp.httpStatus = 402 then
      ({ httpStatus := 402, requires3DS := some true,
         paymentId := sdkResp.body.id,
         redirectUrl := sdkResp.body.authRedirectUrl,
         message := some authRequiredMsg }, calls)
    else
      ({ httpStatus := 400, success := some false,
         errorText := some paymentDeclinedErr,
         status := some (jsOrStr sdkResp.body.status ("FAILED")),
         statusCode := some (jsOrInt sdkResp.body.statusCode
           sdkResp.httpStatus) }, calls)

/-- A successful charge response reporting a capture-pending
authorization. -/
def pendingCaptureResp : SdkResponse :=
  { isSuccess := true
    httpStatus := 201
    body := { id := some ("pay-123")
              status := some ("PENDING_CAPTURE")
              statusCode := none
              authRedirectUrl := none
              cardEcho := none } }

/-- C1: on a charge that succeeds with the capture-pending status, the
handler replies with full success carrying the raw PENDING_CAPTURE status
and performs no follow-up capture call at all — its collaborator trace is
the single charge — contradicting the documented behavior that an
automatic capture executes for that status. -/
theorem processPayment_pending_capture_no_capture :
    processPayment ("enc-blob") ("cust-1") (7799, 1) ("AUD")
        pendingCaptureResp =
      ({ httpStatus := 200, success := some true,
         paymentId := some ("pay-123"), status := some ("PENDING_CAPTURE"),
         cardNumber := some ("N/A") },
        [ServerCall.createPayment ("enc-blob") ("cust-1") 7799 ("AUD")]) ∧
      ((processPayment ("enc-blob") ("cust-1") (7799, 1) ("AUD")
          pendingCaptureResp).2.all fun c => !isCaptureCall c) = true := by
  exact ⟨by decide, by decide⟩

end AnzWorldline
